import Mathlib

/-!
# Verification of the rubicon global-sharing library

Shallow embedding of `src/rubicon/src/lib.rs`: the role-based declaration
transformer (the `process_local!` / `thread_local!` expansions), the
indirection wrappers ` TrustedExtern` and ` TrustedExternDouble`, the
shared-object identity function, the `soprintln!` environment gate, and the
`Beacon` hash / hue computation.

Machine integers are modelled as `Nat` with explicit `% 2^64` where the Rust
code wraps.  The dynamic loader (symbol publication and resolution) is
modelled as an explicit link state, since symbol resolution is the single
runtime integration point of the library.
-/

namespace Rubicon

/-! ## Role resolution (cargo features `export-globals` / `import-globals`) -/

/-- The two cargo feature flags steering the whole build.
Mirrors `#[cfg(feature = "export-globals")]` / `#[cfg(feature = "import-globals")]`. -/
structure Features where
  exportGlobals : Bool
  importGlobals : Bool

/-- The three roles a build can take (spec: `Local`, `Exporting`, `Importing`). -/
inductive Role where
  | localRole
  | exporting
  | importing
deriving DecidableEq, Repr

/-- Message of the `compile_error!` at lib.rs lines 1-2. -/
def roleConflictMsg : String :=
  "The features `export-globals` and `import-globals` cannot be used together"

/-- Role resolution from the feature flags.  Both features together hit the
`compile_error!` (lib.rs:1-2); otherwise the `#[cfg]`s select export, import,
or the plain pass-through expansion. -/
def resolveRole (f : Features) : Except String Role :=
  if f.exportGlobals && f.importGlobals then
    Except.error roleConflictMsg
  else if f.exportGlobals then
    Except.ok Role.exporting
  else if f.importGlobals then
    Except.ok Role.importing
  else
    Except.ok Role.localRole

/-! ## Declarations and the transformer's output -/

/-- A global-state declaration as fed to `process_local!` / `thread_local!`:
a name, a type (opaque token string, never inspected), an initializer value
(our value domain is `Nat`), and a mutability flag. -/
structure Decl where
  name : String
  ty : String
  init : Nat
  isMut : Bool
deriving DecidableEq, Repr

/-- `stableName`: the link-time symbol name, `paste!`-concatenation
`[<$name __rubicon_export>]` used by both the `export_name` and the
`link_name` attribute in the source. -/
def stableName (n : String) : String :=
  n ++ "__rubicon_export"

/-- The importer-side local alias `[<$name __rubicon_import>]`. -/
def importName (n : String) : String :=
  n ++ "__rubicon_import"

/-- Rendering of `::std::thread::LocalKey<$ty>`. -/
def localKeyTy (ty : String) : String :=
  "::std::thread::LocalKey<" ++ ty ++ ">"

/-- Rendering of `&'static ::std::thread::LocalKey<$ty>`. -/
def localKeyRefTy (ty : String) : String :=
  "&" ++ localKeyTy ty

/-- One item of the code a macro expansion emits.

* `staticItem name ty init isMut exportName` — a `static` (or `static mut`)
  definition owning storage; `exportName = some s` models an
  `#[export_name = s]` / `#[no_mangle]` attribute publishing the storage
  under the literal symbol `s`.
* `refStatic name ty target exportName` — a `static` whose value is a
  reference `&target` (the thread-local export's published accessor ref).
* `foreignStatic local link ty isMut` — an `extern "Rust"` block declaring
  symbol `link`, bound locally under the name `local`.
* `singleWrapperStatic name ty target` — `static name: TrustedExtern<ty> =
  TrustedExtern(&target)`.
* `doubleWrapperStatic name ty target` — `static name:
  TrustedExternDouble<ty> = TrustedExternDouble(&target)`.
* `nativeThreadLocal name ty init` — `::std::thread_local! { static name ... }`. -/
inductive Item where
  | staticItem (name ty : String) (init : Nat) (isMut : Bool) (exportName : Option String)
  | refStatic (name ty targetName : String) (exportName : Option String)
  | foreignStatic (localName linkName ty : String) (isMut : Bool)
  | singleWrapperStatic (name ty targetName : String)
  | doubleWrapperStatic (name ty targetName : String)
  | nativeThreadLocal (name ty : String) (init : Nat)
deriving DecidableEq, Repr

/-- `process_local_inner!` under `export-globals` (lib.rs:190-200):
the static itself, published under `stableName` via `#[export_name]`. -/
def processLocalInnerExport (d : Decl) : List Item :=
  [Item.staticItem d.name d.ty d.init false (some (stableName d.name))]

/-- `process_local_inner_mut!` under `export-globals` (lib.rs:202-212). -/
def processLocalInnerMutExport (d : Decl) : List Item :=
  [Item.staticItem d.name d.ty d.init true (some (stableName d.name))]

/-- `process_local_inner!` under `import-globals` (lib.rs:214-228):
an `extern` declaration of `stableName` aliased `__rubicon_import`, plus a
`TrustedExtern` wrapper static bound to the original name. -/
def processLocalInnerImport (d : Decl) : List Item :=
  [Item.foreignStatic (importName d.name) (stableName d.name) d.ty false,
   Item.singleWrapperStatic d.name d.ty (importName d.name)]

/-- `process_local_inner_mut!` under `import-globals` (lib.rs:230-244):
only an `extern` declaration carrying the original name directly
(`#[link_name = stableName] $vis static mut $name`); no wrapper is emitted
("externs require unsafe to access, but so do static mut"). -/
def processLocalInnerMutImport (d : Decl) : List Item :=
  [Item.foreignStatic d.name (stableName d.name) d.ty true]

/-- `process_local!` on a single declaration, by role.  Under no features the
macro is a literal token pass-through (lib.rs:151-158), i.e. the original
static. -/
def processLocalOne (r : Role) (d : Decl) : List Item :=
  match r with
  | Role.localRole => [Item.staticItem d.name d.ty d.init d.isMut none]
  | Role.exporting =>
      if d.isMut then processLocalInnerMutExport d else processLocalInnerExport d
  | Role.importing =>
      if d.isMut then processLocalInnerMutImport d else processLocalInnerImport d

/-- `process_local!` on a declaration list (the macro's multi-declaration
recursion, lib.rs:162-188). -/
def processLocal (r : Role) : List Decl → List Item
  | [] => []
  | d :: rest => processLocalOne r d ++ processLocal r rest

/-- `thread_local_inner!` under `export-globals` (lib.rs:94-109): the native
`::std::thread_local!` accessor plus a `#[no_mangle]` static ref to it,
published under its own name `stableName`. -/
def threadLocalInnerExport (d : Decl) : List Item :=
  [Item.nativeThreadLocal d.name d.ty d.init,
   Item.refStatic (stableName d.name) (localKeyRefTy d.ty) d.name (some (stableName d.name))]

/-- `thread_local_inner!` under `import-globals` (lib.rs:111-128): an
`extern` declaration of `stableName` (typed as a ref to the accessor), plus
a `TrustedExternDouble` wrapper static bound to the original name. -/
def threadLocalInnerImport (d : Decl) : List Item :=
  [Item.foreignStatic (importName d.name) (stableName d.name) (localKeyRefTy d.ty) false,
   Item.doubleWrapperStatic d.name (localKeyTy d.ty) (importName d.name)]

/-- `thread_local!` on a single declaration, by role.  Under no features it
forwards to `::std::thread_local!` unchanged (lib.rs:62-68). -/
def threadLocalOne (r : Role) (d : Decl) : List Item :=
  match r with
  | Role.localRole => [Item.nativeThreadLocal d.name d.ty d.init]
  | Role.exporting => threadLocalInnerExport d
  | Role.importing => threadLocalInnerImport d

/-- A whole build: resolve the role (failing on the feature conflict before
anything else), then transform every declaration. -/
def build (f : Features) (decls : List Decl) : Except String (List Item) :=
  (resolveRole f).map (fun r => processLocal r decls)

/-! ## The dynamic loader / process image model

The library's sole runtime integration point is symbol resolution by the
platform's dynamic loader.  We model the process image as an allocation
counter, a symbol table (most recent publication first), and a flat store
over `Nat` addresses holding `Nat` values. -/

/-- A process image during loading. -/
structure Image where
  nextAddr : Nat
  symtab : List (String × Nat)
  store : Nat → Nat

/-- The per-module map from source-level names to the storage address each
name denotes (for a wrapper static: the address its wrapped reference
resolves to). -/
abbrev Bindings := List (String × Nat)

/-- First binding for a name wins (later `cons`es shadow earlier ones). -/
def lookupName (b : Bindings) (n : String) : Option Nat :=
  (b.find? (fun p => p.1 == n)).map (fun p => p.2)

/-- Symbol-table lookup, first match wins. -/
def lookupSym (s : List (String × Nat)) (n : String) : Option Nat :=
  (s.find? (fun p => p.1 == n)).map (fun p => p.2)

/-- Load one emitted item into the process image.

* a `staticItem` allocates fresh storage, initializes it, and (when carrying
  an `export_name`) publishes its address in the dynamic symbol table;
* a `refStatic` allocates a cell holding the address of its target and
  publishes likewise;
* a `foreignStatic` resolves its link name in the symbol table — allocating
  nothing — and fails the load when the symbol is unresolved;
* a wrapper static binds the original name to the address its target
  resolved to (dereference later follows that reference);
* a `nativeThreadLocal` owns no process-global storage cell here (its slots
  live in the thread-local facility, outside this process-global store). -/
def loadItem (img : Image) (b : Bindings) : Item → Option (Image × Bindings)
  | Item.staticItem n _ init _ exp =>
      let a := img.nextAddr
      let tab := match exp with
        | some s => (s, a) :: img.symtab
        | none => img.symtab
      some ({ nextAddr := a + 1, symtab := tab,
              store := fun a2 => if a2 = a then init else img.store a2 }, (n, a) :: b)
  | Item.refStatic n _ target exp =>
      match lookupName b target with
      | some ta =>
          let a := img.nextAddr
          let tab := match exp with
            | some s => (s, a) :: img.symtab
            | none => img.symtab
          some ({ nextAddr := a + 1, symtab := tab,
                  store := fun a2 => if a2 = a then ta else img.store a2 }, (n, a) :: b)
      | none => none
  | Item.foreignStatic loc link _ _ =>
      match lookupSym img.symtab link with
      | some a => some (img, (loc, a) :: b)
      | none => none
  | Item.singleWrapperStatic n _ target =>
      match lookupName b target with
      | some a => some (img, (n, a) :: b)
      | none => none
  | Item.doubleWrapperStatic n _ target =>
      match lookupName b target with
      | some a => some (img, (n, a) :: b)
      | none => none
  | Item.nativeThreadLocal _ _ _ =>
      some (img, b)

/-- Load a list of emitted items in order. -/
def loadItems (img : Image) (b : Bindings) : List Item → Option (Image × Bindings)
  | [] => some (img, b)
  | it :: rest =>
      match loadItem img b it with
      | some (img1, b1) => loadItems img1 b1 rest
      | none => none

/-- Load a freshly compiled module (empty binding environment) into the
process image. -/
def loadModule (img : Image) (items : List Item) : Option (Image × Bindings) :=
  loadItems img [] items

/-- Read the process-global a source-level name denotes in a module. -/
def readGlobal (img : Image) (b : Bindings) (n : String) : Option Nat :=
  (lookupName b n).map img.store

/-- Write the process-global a source-level name denotes in a module. -/
def writeGlobal (img : Image) (b : Bindings) (n : String) (v : Nat) : Image :=
  match lookupName b n with
  | some a => { img with store := fun a2 => if a2 = a then v else img.store a2 }
  | none => img

/-! ## The indirection wrappers

`TrustedExtern<T>` holds a `&'static T`; its `Deref` returns `self.0`
(lib.rs:17-22).  `TrustedExternDouble<T>` holds a `&'static &'static T`; its
`Deref` forwards through both references by auto-deref (lib.rs:34-40).
References are modelled as addresses into a two-sorted memory: `refCells`
holds reference-valued cells, `vals` holds `T`-valued cells. -/

/-- A memory for wrapper semantics: `refCells` are cells containing
references (addresses of `T`-cells), `vals` are cells containing `T`s. -/
structure Mem (T : Type) where
  refCells : Nat → Nat
  vals : Nat → T

/-- ` TrustedExtern`: wraps one resolved reference to a `T`-cell. -/
structure TrustedExtern where
  addr : Nat
deriving DecidableEq, Repr

/-- ` TrustedExternDouble`: wraps one resolved reference to a ref-cell which
in turn references a `T`-cell. -/
structure TrustedExternDouble where
  addr : Nat
deriving DecidableEq, Repr

/-- Dereferencing the single-indirection wrapper: follow the held
reference (the `Deref` impl returns `self.0`). -/
def derefSingle {T : Type} (m : Mem T) (w : TrustedExtern) : T :=
  m.vals w.addr

/-- Dereferencing the double-indirection wrapper: follow the held reference
and then the reference found there ("autoderef goes brrr"). -/
def derefDouble {T : Type} (m : Mem T) (w : TrustedExternDouble) : T :=
  m.vals (m.refCells w.addr)

/-! ## Shared-object identity

`static SHARED_OBJECT_ID_REF: u64 = 0` is marked `#[used]` and deliberately
never deduplicated: every loaded instance of the module code carries its own
copy, mapped by the loader at a fresh address.  `shared_object_id()` returns
that copy's address as a `u64` (lib.rs:250-258). -/

/-- Loader allocation state for shared objects: each `dlopen` of the module
code maps its `SHARED_OBJECT_ID_REF` copy at a fresh address. -/
structure SoLoader where
  nextAddr : Nat

/-- Load one instance of the module code; returns the address of that
instance's `SHARED_OBJECT_ID_REF` copy. -/
def loadSharedObject (ld : SoLoader) : SoLoader × Nat :=
  ({ nextAddr := ld.nextAddr + 1 }, ld.nextAddr)

/-- `shared_object_id()`: the address of this instance's marker cell, as a
64-bit value (`&SHARED_OBJECT_ID_REF as *const _ as u64`). -/
def shared_object_id (markerAddr : Nat) : Nat :=
  markerAddr % 2 ^ 64

/-! ## The `soprintln!` environment gate

`static ENV_CHECKED: Once` / `static SHOULD_PRINT: AtomicBool` are declared
inside the body of the `soprintln!` expansion (lib.rs:368-369): every call
site that expands the macro gets its own `Once`/`AtomicBool` pair.  A
process therefore holds one gate state per call site, and the environment
variable is read on each call site's first execution. -/

/-- The state of one call site's gate statics. -/
structure GateState where
  envChecked : Bool
  shouldPrint : Bool
deriving DecidableEq, Repr

/-- Initial state of an `ENV_CHECKED` / `SHOULD_PRINT` pair. -/
def initGateState : GateState :=
  { envChecked := false, shouldPrint := false }

/-- The `call_once` block: on this call site's first execution read the
environment variable (`env` is the value of `SO_PRINTLN`, `none` when
unset) and cache `v == "1"`; afterwards do nothing.  Also returns how many
environment reads this invocation performed. -/
def gateOnce (env : Option String) (st : GateState) : GateState × Nat :=
  if st.envChecked then (st, 0)
  else ({ envChecked := true, shouldPrint := env == some ("1") }, 1)

/-- A full `soprintln!` invocation at one call site: run the once-block,
then print exactly when the cached flag is set.  Returns (new state, env
reads, printed?). -/
def soprintlnCall (env : Option String) (st : GateState) : GateState × Nat × Bool :=
  ((gateOnce env st).1, (gateOnce env st).2, (gateOnce env st).1.shouldPrint)

/-- Execute a trace of `soprintln!` invocations in one process.  Call sites
are identified by `Nat`, the process state maps each call site to the state
of its own static pair, and the trace lists the call sites in execution
order.  Returns the final per-site states, the list of environment reads
performed (each tagged with the call site that performed it), and the print
decisions in order. -/
def runTrace (env : Option String) :
    List Nat → (Nat → GateState) → (Nat → GateState) × List Nat × List Bool
  | [], st => (st, [], [])
  | site :: rest, st =>
      let c := soprintlnCall env (st site)
      let stU := fun s => if s = site then c.1 else st s
      let res := runTrace env rest stU
      (res.1, List.replicate c.2.1 site ++ res.2.1, c.2.2 :: res.2.2)

/-! ## The Beacon hash and hue

`Beacon::new` (lib.rs:297-311): an avalanche mixer — three wrapping
multiplications by `0x517cc1b727220a95` with two xor-by-shift-right-32
folds between them — then a linear scaling of the result to a hue. -/

/-- The mixing constant `K` in `Beacon::new::hash`. -/
def hashK : Nat := 0x517cc1b727220a95

/-- `2^64`, the wrap modulus of `u64` arithmetic. -/
def U64 : Nat := 2 ^ 64

/-- `u64::MAX`. -/
def u64MAX : Nat := 2 ^ 64 - 1

/-- One `x.wrapping_mul(K)` step. -/
def wrapMulK (x : Nat) : Nat := x * hashK % U64

/-- One `x ^= x >> 32` step. -/
def xorShift32 (x : Nat) : Nat := x ^^^ (x >>> 32)

/-- The nested `hash` function of `Beacon::new`: mul, fold, mul, fold, mul. -/
def Beacon.hash (x : Nat) : Nat :=
  wrapMulK (xorShift32 (wrapMulK (xorShift32 (wrapMulK x))))

/-- The multiplicative inverse of `hashK` modulo `2^64` (`hashK` is odd). -/
def hashKinv : Nat := 0x2040003d780970bd

/-- One inverse multiplication step. -/
def wrapMulKinv (x : Nat) : Nat := x * hashKinv % U64

/-- Explicit inverse of `Beacon.hash`: undo the three multiplications in
reverse order, with the self-inverse xor-folds between them. -/
def Beacon.hashInv (y : Nat) : Nat :=
  wrapMulKinv (xorShift32 (wrapMulKinv (xorShift32 (wrapMulKinv y))))

/-- The hue computation of `Beacon::new`, in exact arithmetic:
`(hash(u) / u64::MAX) * 360.0`. -/
def hueQ (u : Nat) : ℚ :=
  ((Beacon.hash u : ℚ) / (u64MAX : ℚ)) * 360

/-! ## Observation helpers for the emitted forms -/

/-- The dynamic-symbol name an item is published under, given the compiler's
name mangler: an explicit `export_name` / `no_mangle` attribute publishes
the literal attribute string, untouched by `mangle`; an unattributed static
would be published under its mangled name. -/
def publishedName (mangle : String → String) : Item → Option String
  | Item.staticItem _ _ _ _ (some s) => some s
  | Item.staticItem n _ _ _ none => some (mangle n)
  | Item.refStatic _ _ _ (some s) => some s
  | Item.refStatic n _ _ none => some (mangle n)
  | _ => none

/-- The link-time name an item resolves against, if it is an `extern`
declaration. -/
def linkNameOf : Item → Option String
  | Item.foreignStatic _ ln _ _ => some ln
  | _ => none

/-- Does the emitted form contain an `extern` declaration resolving the
given link name? -/
def declaresForeign (items : List Item) (ln : String) : Bool :=
  items.any fun it =>
    match it with
    | Item.foreignStatic _ l _ _ => l == ln
    | _ => false

/-- Does the emitted form bind the given name to a single-indirection
(` TrustedExtern`) wrapper static? -/
def bindsSingleWrapper (items : List Item) (n : String) : Bool :=
  items.any fun it =>
    match it with
    | Item.singleWrapperStatic nm _ _ => nm == n
    | _ => false

/-- The original, untransformed declaration as one plain `static` item —
what a build that never used the library would contain. -/
def originalStaticItem (d : Decl) : Item :=
  Item.staticItem d.name d.ty d.init d.isMut none

/-- The original declaration under the native thread-scoped-storage
facility — what a build that never used the library would contain for a
thread-local. -/
def nativeFacilityItem (d : Decl) : Item :=
  Item.nativeThreadLocal d.name d.ty d.init

/-- The `static mut DANGEROUS: u64 = 0` declaration from the test crates, a
concrete mutable process-local. -/
def dangerousDecl : Decl :=
  { name := "DANGEROUS", ty := "u64", init := 0, isMut := true }

/-! ## Helper lemmas -/

theorem U64_pos : 0 < U64 := by norm_num [U64]

theorem wrapMulK_lt (x : Nat) : wrapMulK x < U64 :=
  Nat.mod_lt _ U64_pos

theorem xorShift32_lt {x : Nat} (h : x < U64) : xorShift32 x < U64 := by
  have h2 : x >>> 32 < U64 := by
    rw [Nat.shiftRight_eq_div_pow]
    exact lt_of_le_of_lt (Nat.div_le_self x (2 ^ 32)) h
  have := Nat.xor_lt_two_pow (n := 64) (by simpa [U64] using h) (by simpa [U64] using h2)
  simpa [xorShift32, U64] using this

theorem mulK_cancel {x : Nat} (h : x < U64) : wrapMulKinv (wrapMulK x) = x := by
  have hK : hashK * hashKinv % U64 = 1 % U64 := by decide
  calc wrapMulKinv (wrapMulK x)
      = (x * hashK % U64) * hashKinv % U64 := rfl
    _ = x * hashK * hashKinv % U64 := by rw [Nat.mod_mul_mod]
    _ = x * (hashK * hashKinv) % U64 := by ring_nf
    _ = x * 1 % U64 := Nat.ModEq.mul_left x hK
    _ = x := by rw [Nat.mul_one, Nat.mod_eq_of_lt h]

theorem testBit_high {x : Nat} (h : x < U64) {j : Nat} (hj : 64 ≤ j) :
    x.testBit j = false := by
  apply Nat.testBit_lt_two_pow
  calc x < 2 ^ 64 := by simpa [U64] using h
    _ ≤ 2 ^ j := Nat.pow_le_pow_right (by norm_num) hj

theorem xorShift32_invol {x : Nat} (h : x < U64) :
    xorShift32 (xorShift32 x) = x := by
  apply Nat.eq_of_testBit_eq
  intro i
  simp only [xorShift32, Nat.testBit_xor, Nat.testBit_shiftRight]
  have hc : x.testBit (32 + (32 + i)) = false := testBit_high h (by omega)
  rw [hc]
  cases ha : x.testBit i <;> cases hb : x.testBit (32 + i) <;> simp [ha, hb]

theorem beaconHash_lt (x : Nat) : Beacon.hash x < U64 :=
  wrapMulK_lt _

theorem hashInv_hash {x : Nat} (h : x < U64) : Beacon.hashInv (Beacon.hash x) = x := by
  unfold Beacon.hash Beacon.hashInv
  rw [mulK_cancel (xorShift32_lt (wrapMulK_lt _)),
      xorShift32_invol (wrapMulK_lt _),
      mulK_cancel (xorShift32_lt (wrapMulK_lt _)),
      xorShift32_invol (wrapMulK_lt _),
      mulK_cancel h]

theorem stU_self (st : Nat → GateState) (site : Nat) :
    (fun s => if s = site then st site else st s) = st := by
  funext s
  by_cases hs : s = site <;> simp [hs]

theorem runTrace_cons_of_checked (env : Option String) {st : Nat → GateState}
    {site : Nat} (h : (st site).envChecked = true) (rest : List Nat) :
    runTrace env (site :: rest) st =
      ((runTrace env rest st).1, (runTrace env rest st).2.1,
       (st site).shouldPrint :: (runTrace env rest st).2.2) := by
  simp [runTrace, soprintlnCall, gateOnce, h, stU_self st site]

theorem runTrace_cons_of_unchecked (env : Option String) {st : Nat → GateState}
    {site : Nat} (h : (st site).envChecked = false) (rest : List Nat) :
    runTrace env (site :: rest) st =
      ((runTrace env rest (fun s => if s = site then
          { envChecked := true, shouldPrint := env == some ("1") } else st s)).1,
       site :: (runTrace env rest (fun s => if s = site then
          { envChecked := true, shouldPrint := env == some ("1") } else st s)).2.1,
       (env == some ("1")) :: (runTrace env rest (fun s => if s = site then
          { envChecked := true, shouldPrint := env == some ("1") } else st s)).2.2) := by
  simp [runTrace, soprintlnCall, gateOnce, h]

theorem runTrace_count (env : Option String) (trace : List Nat) :
    ∀ (st : Nat → GateState) (s : Nat),
      ((runTrace env trace st).2.1).count s =
        if (st s).envChecked then 0 else if s ∈ trace then 1 else 0 := by
  induction trace with
  | nil =>
      intro st s
      simp [runTrace]
  | cons site rest ih =>
      intro st s
      by_cases hchk : (st site).envChecked
      · rw [runTrace_cons_of_checked env hchk rest]
        rw [ih]
        by_cases hs : s = site
        · subst hs
          simp [hchk]
        · simp [hs, List.mem_cons]
      · rw [runTrace_cons_of_unchecked env (by simpa using hchk) rest]
        rw [List.count_cons, ih]
        by_cases hs : s = site
        · subst hs
          simp [hchk]
        · simp [hs, List.mem_cons, Ne.symm hs]

theorem runTrace_prints (env : Option String) (trace : List Nat) :
    ∀ (st : Nat → GateState),
      (∀ s, (st s).envChecked = true → (st s).shouldPrint = (env == some ("1"))) →
      ∀ p ∈ (runTrace env trace st).2.2, p = (env == some ("1")) := by
  induction trace with
  | nil =>
      intro st _ p hp
      simp [runTrace] at hp
  | cons site rest ih =>
      intro st hinv p hp
      by_cases hchk : (st site).envChecked
      · rw [runTrace_cons_of_checked env hchk rest] at hp
        rcases List.mem_cons.mp hp with rfl | hp
        · exact hinv site hchk
        · exact ih st hinv p hp
      · rw [runTrace_cons_of_unchecked env (by simpa using hchk) rest] at hp
        rcases List.mem_cons.mp hp with rfl | hp
        · rfl
        · refine ih _ (fun s hs => ?_) p hp
          by_cases h2 : s = site
          · subst h2
            simp
          · simp only [h2, if_false] at hs ⊢
            exact hinv s hs

theorem runTrace_final (env : Option String) (trace : List Nat) :
    ∀ (st : Nat → GateState) (s : Nat),
      (runTrace env trace st).1 s =
        if s ∈ trace ∧ (st s).envChecked = false then
          { envChecked := true, shouldPrint := env == some ("1") }
        else st s := by
  induction trace with
  | nil =>
      intro st s
      simp [runTrace]
  | cons site rest ih =>
      intro st s
      by_cases hchk : (st site).envChecked
      · rw [runTrace_cons_of_checked env hchk rest, ih]
        by_cases hs : s = site
        · subst hs
          simp [hchk]
        · simp [hs, List.mem_cons]
      · rw [runTrace_cons_of_unchecked env (by simpa using hchk) rest, ih]
        by_cases hs : s = site
        · subst hs
          simp [hchk]
        · simp [hs, List.mem_cons]

/-! ## The claims -/

/-- C1: for a process-scoped declaration exported by one module and imported
by another, both modules access one single shared storage location: loading
the importing form allocates nothing and leaves the image untouched (no
duplicate storage), both names resolve to the same address, and a write
performed via either module is observed via the other. -/
theorem c1_write_visibility (d : Decl) (img : Image) (v : Nat) :
    ∃ imgE bA bB,
      loadModule img (processLocalOne Role.exporting d) = some (imgE, bA) ∧
      loadModule imgE (processLocalOne Role.importing d) = some (imgE, bB) ∧
      lookupName bB d.name = lookupName bA d.name ∧
      readGlobal (writeGlobal imgE bA d.name v) bB d.name = some v ∧
      readGlobal (writeGlobal imgE bB d.name v) bA d.name = some v := by
  obtain ⟨n, ty, init, m⟩ := d
  cases m
  · refine ⟨{ nextAddr := img.nextAddr + 1,
              symtab := (stableName n, img.nextAddr) :: img.symtab,
              store := fun a2 => if a2 = img.nextAddr then init else img.store a2 },
            [(n, img.nextAddr)],
            [(n, img.nextAddr), (importName n, img.nextAddr)],
            ?_, ?_, ?_, ?_, ?_⟩ <;>
      simp [loadModule, loadItems, loadItem, processLocalOne,
            processLocalInnerExport, processLocalInnerImport,
            lookupSym, lookupName, readGlobal, writeGlobal]
  · refine ⟨{ nextAddr := img.nextAddr + 1,
              symtab := (stableName n, img.nextAddr) :: img.symtab,
              store := fun a2 => if a2 = img.nextAddr then init else img.store a2 },
            [(n, img.nextAddr)],
            [(n, img.nextAddr)],
            ?_, ?_, ?_, ?_, ?_⟩ <;>
      simp [loadModule, loadItems, loadItem, processLocalOne,
            processLocalInnerMutExport, processLocalInnerMutImport,
            lookupSym, lookupName, readGlobal, writeGlobal]

/-- C2: selecting both the exporting and the importing role makes the build
fail immediately with the `compile_error!` message, for every declaration
set (the empty one included); the error result carries no generated code. -/
theorem c2_role_conflict_fails (f : Features) (decls : List Decl)
    (hE : f.exportGlobals = true) (hI : f.importGlobals = true) :
    build f decls = Except.error roleConflictMsg := by
  simp [build, resolveRole, hE, hI, Except.map]

/-- Witness for C2 at the concrete conflicting feature set and the empty
declaration list. -/
theorem c2_role_conflict_fails_witness :
    (Features.mk true true).exportGlobals = true ∧
    (Features.mk true true).importGlobals = true ∧
    build (Features.mk true true) [] = Except.error roleConflictMsg :=
  ⟨rfl, rfl, c2_role_conflict_fails (Features.mk true true) [] rfl rfl⟩

/-- C3: `stableName` is the pure function `name ++ "__rubicon_export"`; for
every declaration (mutable or not) and every compiler name mangler, the
exporting build publishes exactly that name and the importing build links
against exactly that name — character-identical on both sides and untouched
by mangling. -/
theorem c3_stable_name (mangle : String → String) (d : Decl) :
    stableName d.name = d.name ++ "__rubicon_export" ∧
    (processLocalOne Role.exporting d).filterMap (publishedName mangle) =
      [stableName d.name] ∧
    (processLocalOne Role.importing d).filterMap linkNameOf =
      [stableName d.name] := by
  refine ⟨rfl, ?_, ?_⟩ <;> cases hm : d.isMut <;>
    simp [processLocalOne, processLocalInnerExport, processLocalInnerMutExport,
          processLocalInnerImport, processLocalInnerMutImport, hm,
          publishedName, linkNameOf]

/-- C4 counterexample: for the concrete mutable process-local
`static mut DANGEROUS: u64 = 0`, the importing expansion is a bare `extern`
declaration carrying the original name directly — no single-indirection
wrapper is emitted, refuting the claim for mutable declarations. -/
theorem c4_mut_import_has_no_wrapper :
    processLocalOne Role.importing dangerousDecl =
      [Item.foreignStatic ("DANGEROUS") (stableName ("DANGEROUS")) ("u64") true] ∧
    bindsSingleWrapper (processLocalOne Role.importing dangerousDecl)
      ("DANGEROUS") = false := by
  constructor <;> rfl

/-- C4 (amended): every process-scoped import declares an external symbol
named `stableName`; an immutable declaration's name is replaced by a
single-indirection wrapper around the resolved reference, while a mutable
declaration's name is bound to the external symbol directly, with no
wrapper (access already requires `unsafe`). -/
theorem c4_import_form (d : Decl) :
    declaresForeign (processLocalOne Role.importing d) (stableName d.name) = true ∧
    bindsSingleWrapper (processLocalOne Role.importing d) d.name = !d.isMut ∧
    processLocalOne Role.importing d =
      (if d.isMut then
        [Item.foreignStatic d.name (stableName d.name) d.ty true]
      else
        [Item.foreignStatic (importName d.name) (stableName d.name) d.ty false,
         Item.singleWrapperStatic d.name d.ty (importName d.name)]) := by
  cases hm : d.isMut <;>
    simp [processLocalOne, processLocalInnerImport, processLocalInnerMutImport,
          hm, declaresForeign, bindsSingleWrapper]

/-- C5: dereferencing the single-indirection wrapper holding reference `r`
yields exactly the value `r` refers to; dereferencing the double-indirection
wrapper transparently follows both levels; and every operation on the
wrapped type performed through either wrapper equals the operation performed
directly on the underlying storage — the wrappers are pure forwarding (they
take no state and change no state). -/
theorem c5_wrapper_transparency {T U : Type} (m : Mem T) (r rr : Nat) (op : T → U) :
    derefSingle m ⟨r⟩ = m.vals r ∧
    derefDouble m ⟨rr⟩ = m.vals (m.refCells rr) ∧
    op (derefSingle m ⟨r⟩) = op (m.vals r) ∧
    op (derefDouble m ⟨rr⟩) = op (m.vals (m.refCells rr)) :=
  ⟨rfl, rfl, rfl, rfl⟩

/-- C6: `shared_object_id` is the 64-bit address of the instance's own
non-deduplicated marker cell, and loading two separate instances of the same
module code yields two distinct identity values (the loader maps each
instance's marker copy at a fresh address). -/
theorem c6_identity_unique (ld : SoLoader) (h : ld.nextAddr + 1 < 2 ^ 64) :
    shared_object_id (loadSharedObject ld).2 ≠
      shared_object_id (loadSharedObject (loadSharedObject ld).1).2 ∧
    shared_object_id (loadSharedObject ld).2 < 2 ^ 64 := by
  simp only [loadSharedObject, shared_object_id]
  constructor
  · have h1 : ld.nextAddr % 2 ^ 64 = ld.nextAddr := Nat.mod_eq_of_lt (by omega)
    have h2 : (ld.nextAddr + 1) % 2 ^ 64 = ld.nextAddr + 1 := Nat.mod_eq_of_lt h
    omega
  · exact Nat.mod_lt _ (by norm_num)

/-- Witness for C6: a fresh loader. -/
theorem c6_identity_unique_witness :
    (SoLoader.mk 0).nextAddr + 1 < 2 ^ 64 ∧
    (shared_object_id (loadSharedObject (SoLoader.mk 0)).2 ≠
      shared_object_id (loadSharedObject (loadSharedObject (SoLoader.mk 0)).1).2 ∧
     shared_object_id (loadSharedObject (SoLoader.mk 0)).2 < 2 ^ 64) :=
  ⟨by norm_num, c6_identity_unique (SoLoader.mk 0) (by norm_num)⟩

/-- C7 counterexample: in a process with two `soprintln!` call sites (the
gate statics are declared inside each expansion, lib.rs:368-369), executing
each call site once with `SO_PRINTLN=1` reads the environment variable
twice — not exactly once per process. -/
theorem c7_two_call_sites_read_twice :
    ((runTrace (some ("1")) [0, 1] (fun _ => initGateState)).2.1).length = 2 ∧
    ((runTrace (some ("1")) [0, 1] (fun _ => initGateState)).2.1).length ≠ 1 := by
  constructor
  · rfl
  · decide

/-- C7 (amended): the environment variable is checked exactly once per
`soprintln!` call site — at that site's first execution, cached thereafter:
over any execution trace, each invoked call site performs exactly one
environment read and uninvoked sites perform none; every print decision
equals `value == "1"`; and a site's cached flag ends up set iff the site
was executed and the variable's value is exactly `"1"` — any other value or
absence leaves output disabled. -/
theorem c7_env_checked_once_per_site (env : Option String) (trace : List Nat) :
    (∀ s : Nat, ((runTrace env trace (fun _ => initGateState)).2.1).count s =
        if s ∈ trace then 1 else 0) ∧
    (∀ p ∈ (runTrace env trace (fun _ => initGateState)).2.2,
        p = (env == some ("1"))) ∧
    (∀ s : Nat,
        ((runTrace env trace (fun _ => initGateState)).1 s).shouldPrint = true ↔
          (s ∈ trace ∧ env = some ("1"))) := by
  refine ⟨fun s => ?_,
          runTrace_prints env trace _ (fun s hs => by simp [initGateState] at hs),
          fun s => ?_⟩
  · rw [runTrace_count]
    simp [initGateState]
  · rw [runTrace_final]
    by_cases hs : s ∈ trace
    · simp [hs, initGateState]
    · simp [hs, initGateState]

/-- C8 counterexample: at the concrete input `7522950700675423940` the mixer
reaches `u64::MAX`, so the scaled hue equals `360` exactly — it is not
strictly below `360`. -/
theorem c8_hue_reaches_360 :
    Beacon.hash 7522950700675423940 = u64MAX ∧
    hueQ 7522950700675423940 = 360 ∧
    ¬ hueQ 7522950700675423940 < 360 := by
  have h : Beacon.hash 7522950700675423940 = u64MAX := by decide
  have h360 : hueQ 7522950700675423940 = 360 := by
    rw [hueQ, h, div_self (by norm_num [u64MAX]), one_mul]
  exact ⟨h, h360, by rw [h360]; exact lt_irrefl _⟩

/-- C8 (amended): for every input, the scaled hue `hash(u)/u64::MAX * 360`
lies in `[0, 360]`, reaching `360` exactly when the mixed value equals
`u64::MAX` (which a bijective mixer attains for exactly one input). -/
theorem c8_hue_bounds (u : Nat) :
    0 ≤ hueQ u ∧ hueQ u ≤ 360 ∧ (hueQ u = 360 ↔ Beacon.hash u = u64MAX) := by
  have hle : Beacon.hash u ≤ u64MAX := by
    have := beaconHash_lt u
    unfold U64 u64MAX at *
    omega
  have hM : (0 : ℚ) < (u64MAX : ℚ) := by norm_num [u64MAX]
  have hcast : (Beacon.hash u : ℚ) ≤ (u64MAX : ℚ) := by exact_mod_cast hle
  refine ⟨?_, ?_, ?_⟩
  · exact mul_nonneg (div_nonneg (by positivity) (le_of_lt hM)) (by norm_num)
  · rw [hueQ, div_mul_eq_mul_div, div_le_iff₀ hM]
    nlinarith
  · rw [hueQ, div_mul_eq_mul_div, div_eq_iff (ne_of_gt hM)]
    constructor
    · intro hEq
      have : (Beacon.hash u : ℚ) = (u64MAX : ℚ) := by nlinarith
      exact_mod_cast this
    · intro hEq
      rw [hEq]
      ring

/-- C9: with no feature signal the role resolves to `Local`, and under the
`Local` role both the process-scoped and the thread-scoped expansions are
exactly the original declaration (the plain static, respectively the native
thread-scoped facility applied to it) — a Local build is observationally
identical to one that never used the transformer. -/
theorem c9_local_passthrough :
    resolveRole { exportGlobals := false, importGlobals := false } =
      Except.ok Role.localRole ∧
    (∀ d : Decl, processLocalOne Role.localRole d = [originalStaticItem d]) ∧
    (∀ d : Decl, threadLocalOne Role.localRole d = [nativeFacilityItem d]) :=
  ⟨rfl, fun _ => rfl, fun _ => rfl⟩

/-- C10: the avalanche mixer of `Beacon::new` is injective (hence bijective)
on the 64-bit domain: distinct inputs below `2^64` always map to distinct
outputs. -/
theorem c10_hash_injective (a b : Nat) (ha : a < U64) (hb : b < U64)
    (h : Beacon.hash a = Beacon.hash b) : a = b := by
  have := congrArg Beacon.hashInv h
  rwa [hashInv_hash ha, hashInv_hash hb] at this

/-- Witness for C10 at concrete inputs. -/
theorem c10_hash_injective_witness :
    (5 : Nat) < U64 ∧ (5 : Nat) = 5 :=
  ⟨by norm_num [U64], c10_hash_injective 5 5 (by norm_num [U64]) (by norm_num [U64]) rfl⟩

end Rubicon
